import Mathlib

/-!
Verification of the odemindf client-side state-persistence and
image-ingestion core, shallowly embedded from the source:

* `src/unnamed/part_000` — the `App` component: storage key, state loader,
  debounced persistence effect, and the CRUD mutators over `AppState`.
* `src/unnamed/part_001` — the current `AdminView`: `compressImage` codec,
  `ProjectForm.handleFileChange` ingestion queue, `handleImport`.
* `src/constants.tsx` — the built-in default dataset.

`src/components/AdminView.tsx` is an earlier revision of the admin
component (it writes the stale storage key `odemind_archive_v4_prod`,
which `App` never reads); where the two revisions differ, the variant
consistent with `App` (`src/unnamed/part_001`) is the one embedded, and
the older variant is embedded separately under a `V4` suffix.
-/

namespace Odemind

/-- Modelled from the spec (§3): `types.ts` is not among the source files;
`Category` is "an enum of a fixed set", with the members observed in
`src/constants.tsx` and the form defaults. -/
inductive Category where
  | BRANDING
  | SPACE
  deriving DecidableEq, Repr

/-- Modelled from the spec (§3): project status enum
`IN_PROGRESS | COMPLETED | ARCHIVED`. -/
inductive ProjectStatus where
  | IN_PROGRESS
  | COMPLETED
  | ARCHIVED
  deriving DecidableEq, Repr

/-- Modelled from the spec (§3): the `Project` record (`types.ts` missing
from src); field set as listed there and as used across the source. -/
structure Project where
  id : String
  title : String
  category : Category
  client : String
  status : ProjectStatus
  date : String
  description : String
  imageUrls : List String
  deriving DecidableEq, Repr

/-- Modelled from the spec (§3): the `ArchiveItem` record. -/
structure ArchiveItem where
  id : String
  year : String
  company : String
  category : String
  project : String
  imageUrl : String
  deriving DecidableEq, Repr

/-- Modelled from the spec (§3): the `Service` record. -/
structure Service where
  id : String
  number : String
  title : String
  description : String
  deriving DecidableEq, Repr

/-- Modelled from the spec (§3): `AppState`, the full application state
(`types.ts` missing from src); shape as constructed in
`src/unnamed/part_000` lines 17–23. -/
structure AppState where
  projects : List Project
  archiveItems : List ArchiveItem
  services : List Service
  siteTitle : String
  tagline : String
  deriving DecidableEq, Repr

/-- `src/unnamed/part_000` line 7. -/
def STORAGE_KEY : String := "odemind_archive_v5_final"

/-- `src/constants.tsx`: `INITIAL_PROJECTS`. -/
def INITIAL_PROJECTS : List Project :=
  [ { id := "ODM-PRJ-2004-001"
    , title := "CYBER-PUNK BRANDING"
    , category := .BRANDING
    , date := "2004-03-12"
    , description := "Visual identity system for a futuristic tech startup based in Seoul."
    , imageUrls := ["https://picsum.photos/seed/odemind1/800/600"]
    , client := "NEO-SEOUL CO."
    , status := .COMPLETED }
  , { id := "ODM-PRJ-2004-002"
    , title := "URBAN SPACE DESIGN"
    , category := .SPACE
    , date := "2004-02-15"
    , description := "Minimalist industrial interior design for a flagship concept store."
    , imageUrls := ["https://picsum.photos/seed/odemind2/800/600"]
    , client := "VOID ATELIER"
    , status := .COMPLETED } ]

/-- `src/constants.tsx`: `INITIAL_ARCHIVE`. -/
def INITIAL_ARCHIVE : List ArchiveItem :=
  [ { id := "1", year := "2015 - Present", company := "Le Labo"
    , category := "Retail, Beauty", project := "Ecommerce & Photography"
    , imageUrl := "https://picsum.photos/seed/lelabo/400/600" }
  , { id := "2", year := "2019 - Present", company := "Huckberry"
    , category := "Retail, Apparel", project := "Headless Ecommerce Launch"
    , imageUrl := "https://picsum.photos/seed/huckberry/400/600" } ]

/-- `src/constants.tsx`: `INITIAL_SERVICES`. -/
def INITIAL_SERVICES : List Service :=
  [ { id := "S-01", number := "01", title := "CONTENT ARCHITECTURE"
    , description := "Optimizing brand positioning through strategic planning that evolves with the times." }
  , { id := "S-02", number := "02", title := "BRANDING SYSTEMS"
    , description := "Mastering brand positioning through strategic planning and evolved visual identity" } ]

/-- `src/unnamed/part_000` lines 17–23: the `defaultState` built in the
`useState` initializer. -/
def defaultState : AppState :=
  { projects := INITIAL_PROJECTS
  , archiveItems := INITIAL_ARCHIVE
  , services := INITIAL_SERVICES
  , siteTitle := "ODEMIND"
  , tagline := "ODEMIND OPERATES AS AN ASIAN CONTENT AND DISTRIBUTION HUB, COLLABORATING WITH STRATEGIC PARTNERS ACROSS CHINA, TAIWAN, HONG KONG, AND INDONESIA." }

/-! ## Application State Store mutators (`src/unnamed/part_000` lines 76–106)

Each mutator is the pure function passed to `setState`; `deleteProject`
and `deleteArchiveItem` additionally take the boolean outcome of the
`window.confirm` call that gates them in the source. -/

/-- `src/unnamed/part_000` lines 76–78. -/
def updateProject (s : AppState) (id : String) (updated : Project) : AppState :=
  { s with projects := s.projects.map fun p => if p.id = id then updated else p }

/-- `src/unnamed/part_000` lines 80–82. -/
def addProject (s : AppState) (project : Project) : AppState :=
  { s with projects := project :: s.projects }

/-- `src/unnamed/part_000` lines 84–88: `window.confirm` outcome passed in
as `confirmed`; the filter keeps exactly the projects whose id differs. -/
def deleteProject (s : AppState) (id : String) (confirmed : Bool) : AppState :=
  if confirmed then
    { s with projects := s.projects.filter fun p => p.id ≠ id }
  else s

/-- `src/unnamed/part_000` lines 90–92. -/
def updateArchiveItem (s : AppState) (id : String) (updated : ArchiveItem) : AppState :=
  { s with archiveItems := s.archiveItems.map fun item => if item.id = id then updated else item }

/-- `src/unnamed/part_000` lines 94–96. -/
def addArchiveItem (s : AppState) (item : ArchiveItem) : AppState :=
  { s with archiveItems := item :: s.archiveItems }

/-- `src/unnamed/part_000` lines 98–102: `window.confirm` outcome passed in
as `confirmed`. -/
def deleteArchiveItem (s : AppState) (id : String) (confirmed : Bool) : AppState :=
  if confirmed then
    { s with archiveItems := s.archiveItems.filter fun item => item.id ≠ id }
  else s

/-- `src/unnamed/part_000` lines 104–106. -/
def updateSettings (s : AppState) (siteTitle tagline : String) : AppState :=
  { s with siteTitle := siteTitle, tagline := tagline }

/-- A sample project used in concrete witnesses; its id does not occur in
`INITIAL_PROJECTS`. -/
def sampleProject : Project :=
  { id := "ODM-PRJ-2025-001", title := "SAMPLE", category := .BRANDING
  , client := "C", status := .IN_PROGRESS, date := "2025-01-01"
  , description := "D", imageUrls := [] }

/-- A sample archive item used in concrete witnesses. -/
def sampleArchiveItem : ArchiveItem :=
  { id := "1", year := "2015 - Present", company := "Le Labo"
  , category := "Retail, Beauty", project := "Ecommerce & Photography"
  , imageUrl := "https://picsum.photos/seed/lelabo/400/600" }

/-- A state with a duplicated project id and a duplicated archive id, for
the C9 witness. -/
def dupState : AppState :=
  { defaultState with
    projects := [sampleProject, { sampleProject with title := "OTHER" }]
    archiveItems := [sampleArchiveItem, { sampleArchiveItem with company := "X" }] }

/-! ## Image Codec (`src/unnamed/part_001` lines 5–31, `compressImage`)

The browser image element either decodes the data-URL source (firing
`onload` with a pixel width and height) or fails to decode it (firing
`onerror`); `ImgSrc` records that outcome. The canvas JPEG encoder
(`canvas.toDataURL`) is modelled by `toDataURL`, an opaque nonempty
data-URL string determined by the painted dimensions and quality. The
quality factor 0.4 (resp. 0.6 in the older revision) is carried as a
percentage to stay in `Nat`. A promise that settles with value `v` is
modelled as `some v`; a promise that never settles as `none`. -/

/-- Decode outcome of an image source: a decodable bitmap with its pixel
dimensions, or a decode failure. -/
inductive ImgSrc where
  | ok (width height : Nat)
  | bad
  deriving DecidableEq, Repr

/-- JavaScript `Math.round (num / den)` for nonnegative rationals:
floor (num / den + 1 / 2). -/
def jsRound (num den : Nat) : Nat := (2 * num + den) / (2 * den)

/-- Model of `canvas.toDataURL('image/jpeg', quality)` for a canvas painted
at the given dimensions: an opaque, nonempty encoded string. -/
def toDataURL (w h qualityPct : Nat) : String :=
  "data:image/jpeg;" ++ toString w ++ "x" ++ toString h ++ ";q" ++ toString qualityPct

/-- `src/unnamed/part_001` lines 5–31: the current `compressImage`.
On `onload` it scales width down to `maxWidth` (height rounded, aspect
preserved) when the bitmap is wider, paints on a white background, and
resolves with the JPEG data-URL; on `onerror` it resolves with `''`. -/
def compressImage (src : ImgSrc) (maxWidth : Nat := 600)
    (qualityPct : Nat := 40) : Option String :=
  match src with
  | .bad => some ""
  | .ok w h =>
    if w > maxWidth then
      some (toDataURL maxWidth (jsRound (h * maxWidth) w) qualityPct)
    else
      some (toDataURL w h qualityPct)

/-- `src/components/AdminView.tsx` lines 5–29: the older revision of
`compressImage` (presets 1000px / quality 0.6). It installs no `onerror`
handler, so on a decode failure neither resolver runs and the promise
never settles (`none`). -/
def compressImageV4 (src : ImgSrc) (maxWidth : Nat := 1000)
    (qualityPct : Nat := 60) : Option String :=
  match src with
  | .bad => none
  | .ok w h =>
    if w > maxWidth then
      some (toDataURL maxWidth (jsRound (h * maxWidth) w) qualityPct)
    else
      some (toDataURL w h qualityPct)

/-! ## Media Ingestion Queue (`src/unnamed/part_001` lines 55–85,
`ProjectForm.handleFileChange`) -/

/-- A selected file: its byte size and the decode outcome of its
data-URL content (the `FileReader.readAsDataURL` read always completes;
decodability is a property of the bytes). -/
structure FileData where
  size : Nat
  img : ImgSrc
  deriving DecidableEq, Repr

/-- Observable outcome of one `handleFileChange` batch: the collected
data-URLs (in processing order), the `alert` messages raised, and how many
times the codec (decode work) was invoked. -/
structure IngestResult where
  urls : List String
  alerts : List String
  decodes : Nat
  deriving DecidableEq, Repr

/-- `src/unnamed/part_001` line 65. -/
def tooLargeWarning : String := "SKIP: FILE_TOO_LARGE (>10MB)"

/-- `src/unnamed/part_001` line 64: `10 * 1024 * 1024`. -/
def fileSizeCeiling : Nat := 10 * 1024 * 1024

/-- The value the current codec's promise settles with (it always settles,
so the `Option` is total). -/
def compressedStr (src : ImgSrc) : String := (compressImage src).getD ""

/-- `src/unnamed/part_001` lines 55–85: the sequential ingestion loop.
Each file is handled in input order: an oversized file raises the warning
and is skipped (`continue`) before any decode; otherwise the file is read,
compressed, and the result appended unless it is the empty sentinel. -/
def handleFileChange : List FileData → IngestResult
  | [] => { urls := [], alerts := [], decodes := 0 }
  | f :: rest =>
    if f.size > fileSizeCeiling then
      let o := handleFileChange rest
      { o with alerts := tooLargeWarning :: o.alerts }
    else
      let c := compressedStr f.img
      let o := handleFileChange rest
      { urls := if c = "" then o.urls else c :: o.urls
      , alerts := o.alerts
      , decodes := o.decodes + 1 }

/-! ## JSON values

`JSON.parse` / `JSON.stringify` are platform builtins, not repository
code: parsed documents are modelled by the `Json` value type, and
serialization by `stringifyJson` (string escaping elided — only the
stored document and its size matter to the claims). -/

/-- A parsed JSON document. -/
inductive Json where
  | null
  | bool (b : Bool)
  | num (n : Int)
  | str (s : String)
  | arr (elems : List Json)
  | obj (fields : List (String × Json))

/-- JavaScript truthiness of a JSON value. -/
def truthy : Json → Bool
  | .null => false
  | .bool b => b
  | .num n => n != 0
  | .str s => s != ""
  | .arr _ => true
  | .obj _ => true

/-- Property access `v.key`: a value on an object that has the key,
`undefined` (here `none`) otherwise — including on every non-object. -/
def getField : Json → String → Option Json
  | .obj fields, key => fields.lookup key
  | _, _ => none

/-- `Array.isArray`. -/
def isArr : Json → Bool
  | .arr _ => true
  | _ => false

/-- Model of `JSON.stringify` (string escaping elided). The recursion is
made structural by a fuel argument bounding the nesting depth; callers
supply fuel exceeding their documents' depth. -/
def stringifyFuel : Nat → Json → String
  | _, .null => "null"
  | _, .bool true => "true"
  | _, .bool false => "false"
  | _, .num n => toString n
  | _, .str s => "\"" ++ s ++ "\""
  | 0, .arr _ => ""
  | 0, .obj _ => ""
  | fuel+1, .arr elems =>
      "[" ++ String.intercalate "," (elems.map (stringifyFuel fuel)) ++ "]"
  | fuel+1, .obj fields =>
      "\x7b" ++ String.intercalate ","
        (fields.map fun kv => "\"" ++ kv.1 ++ "\":" ++ stringifyFuel fuel kv.2) ++ "\x7d"

/-! ## State Loader (`src/unnamed/part_000` lines 16–38) -/

/-- The loader's possible raw inputs: no stored value under the key (or a
falsy empty string — `if (saved)`), a stored string on which `JSON.parse`
throws (caught at line 34), or a successfully parsed document. -/
inductive Persisted where
  | absent
  | malformed (raw : String)
  | parsed (j : Json)

/-- `src/unnamed/part_000` line 30: the minimal shape check
`parsed && Array.isArray(parsed.projects)`. -/
def loadShapeOk (j : Json) : Bool :=
  truthy j &&
    (match getField j "projects" with
      | some v => isArr v
      | none => false)

/-- A JSON string value. -/
def asStr : Json → Option String
  | .str s => some s
  | _ => none

/-- Category enum decode; the enum is serialized by its member name. -/
def decodeCategory : Json → Option Category
  | .str "BRANDING" => some .BRANDING
  | .str "SPACE" => some .SPACE
  | _ => none

/-- Status enum decode. -/
def decodeStatus : Json → Option ProjectStatus
  | .str "IN_PROGRESS" => some .IN_PROGRESS
  | .str "COMPLETED" => some .COMPLETED
  | .str "ARCHIVED" => some .ARCHIVED
  | _ => none

/-- A JSON array of strings. -/
def decodeStringList : Json → Option (List String)
  | .arr elems => elems.mapM asStr
  | _ => none

/-- A serialized `Project`. -/
def decodeProject (j : Json) : Option Project := do
  let id ← getField j "id" >>= asStr
  let title ← getField j "title" >>= asStr
  let category ← getField j "category" >>= decodeCategory
  let client ← getField j "client" >>= asStr
  let status ← getField j "status" >>= decodeStatus
  let date ← getField j "date" >>= asStr
  let description ← getField j "description" >>= asStr
  let imageUrls ← getField j "imageUrls" >>= decodeStringList
  some { id := id, title := title, category := category, client := client
       , status := status, date := date, description := description
       , imageUrls := imageUrls }

/-- A serialized `ArchiveItem`. -/
def decodeArchiveItem (j : Json) : Option ArchiveItem := do
  let id ← getField j "id" >>= asStr
  let year ← getField j "year" >>= asStr
  let company ← getField j "company" >>= asStr
  let category ← getField j "category" >>= asStr
  let project ← getField j "project" >>= asStr
  let imageUrl ← getField j "imageUrl" >>= asStr
  some { id := id, year := year, company := company, category := category
       , project := project, imageUrl := imageUrl }

/-- A serialized `Service`. -/
def decodeService (j : Json) : Option Service := do
  let id ← getField j "id" >>= asStr
  let number ← getField j "number" >>= asStr
  let title ← getField j "title" >>= asStr
  let description ← getField j "description" >>= asStr
  some { id := id, number := number, title := title, description := description }

/-- A serialized project list. -/
def decodeProjects : Json → Option (List Project)
  | .arr elems => elems.mapM decodeProject
  | _ => none

/-- A serialized archive list. -/
def decodeArchiveItems : Json → Option (List ArchiveItem)
  | .arr elems => elems.mapM decodeArchiveItem
  | _ => none

/-- A serialized service list. -/
def decodeServices : Json → Option (List Service)
  | .arr elems => elems.mapM decodeService
  | _ => none

/-- Modelled from the spec (§4.5): the JS spread `{ ...defaultState,
...parsed }` (`src/unnamed/part_000` line 31) merges parsed fields over
the defaults field-by-field; in this typed embedding a field overrides its
default when present and decodable to the field's type, and stays the
default otherwise. -/
def mergeOverDefault (d : AppState) (j : Json) : AppState :=
  { projects := (getField j "projects" >>= decodeProjects).getD d.projects
  , archiveItems := (getField j "archiveItems" >>= decodeArchiveItems).getD d.archiveItems
  , services := (getField j "services" >>= decodeServices).getD d.services
  , siteTitle := (getField j "siteTitle" >>= asStr).getD d.siteTitle
  , tagline := (getField j "tagline" >>= asStr).getD d.tagline }

/-- `src/unnamed/part_000` lines 16–38: the `useState` initializer. Every
branch returns a state (the `try`/`catch` swallows parse failures), so the
loader is a total function: absent input, a parse failure, and a
shape-check failure all fall back to `defaultState`; only a shape-checked
document is merged over the defaults. -/
def loadState (saved : Persisted) : AppState :=
  match saved with
  | .absent => defaultState
  | .malformed _ => defaultState
  | .parsed j => if loadShapeOk j then mergeOverDefault defaultState j else defaultState

/-! ## Persistence Synchronizer (`src/unnamed/part_000` lines 41–55) -/

/-- The debounced persistence effect: every state change re-runs the
effect; its cleanup (`clearTimeout`) cancels the previously armed timer
and a fresh 500 ms timer is armed capturing the new state. Given the
chronological stream of state changes (times strictly increasing), a write
fires at `t + window` for exactly those changes at `t` that no further
change pre-empts within the window; the fired write carries the captured
state. -/
def debounceWrites (window : Nat) : List (Nat × AppState) → List (Nat × AppState)
  | [] => []
  | (t, s) :: rest =>
    match rest with
    | [] => [(t + window, s)]
    | (tn, _) :: _ =>
      if tn < t + window then debounceWrites window rest
      else (t + window, s) :: debounceWrites window rest

/-- `src/unnamed/part_000` line 53: the debounce window in milliseconds. -/
def DEBOUNCE_MS : Nat := 500

/-- `src/unnamed/part_000` line 50: the quota-exceeded alert. -/
def quotaNotice : String :=
  "CRITICAL_ERROR: STORAGE_LIMIT_EXCEEDED.\n이미지가 너무 많거나 큽니다. 일부 프로젝트를 삭제하거나 이미지를 줄여주세요."

/-- JSON document for a `Category` (string enum member name). -/
def categoryToJson (c : Category) : Json :=
  .str (match c with | .BRANDING => "BRANDING" | .SPACE => "SPACE")

/-- JSON document for a `ProjectStatus`. -/
def statusToJson (st : ProjectStatus) : Json :=
  .str (match st with
    | .IN_PROGRESS => "IN_PROGRESS"
    | .COMPLETED => "COMPLETED"
    | .ARCHIVED => "ARCHIVED")

/-- JSON document for a `Project`. -/
def projectToJson (p : Project) : Json :=
  .obj [ ("id", .str p.id), ("title", .str p.title)
       , ("category", categoryToJson p.category), ("client", .str p.client)
       , ("status", statusToJson p.status), ("date", .str p.date)
       , ("description", .str p.description)
       , ("imageUrls", .arr (p.imageUrls.map .str)) ]

/-- JSON document for an `ArchiveItem`. -/
def archiveItemToJson (a : ArchiveItem) : Json :=
  .obj [ ("id", .str a.id), ("year", .str a.year), ("company", .str a.company)
       , ("category", .str a.category), ("project", .str a.project)
       , ("imageUrl", .str a.imageUrl) ]

/-- JSON document for a `Service`. -/
def serviceToJson (sv : Service) : Json :=
  .obj [ ("id", .str sv.id), ("number", .str sv.number)
       , ("title", .str sv.title), ("description", .str sv.description) ]

/-- The document `JSON.stringify(state)` serializes
(`src/unnamed/part_000` line 45). -/
def appStateToJson (s : AppState) : Json :=
  .obj [ ("projects", .arr (s.projects.map projectToJson))
       , ("archiveItems", .arr (s.archiveItems.map archiveItemToJson))
       , ("services", .arr (s.services.map serviceToJson))
       , ("siteTitle", .str s.siteTitle)
       , ("tagline", .str s.tagline) ]

/-- Byte size of `JSON.stringify(state)` — what the storage backend's
quota is measured against. A serialized state nests at most five levels
(top object → collection array → item object → `imageUrls` array →
string), so fuel 8 never runs out. -/
def serializedSize (s : AppState) : Nat := (stringifyFuel 8 (appStateToJson s)).length

/-- The synchronizer-relevant system state: the in-memory `AppState`, the
persistent key-value storage (stored JSON documents by key), the alert
notices raised so far (most recent first), and the `isSyncing` flag. -/
structure PersistSys where
  mem : AppState
  store : String → Option Json
  notices : List String
  syncing : Bool

/-- A state change arrives (`src/unnamed/part_000` lines 41–42, 55): the
effect re-runs — `setIsSyncing(true)`, the previous timer is cleared (the
cancellation itself is accounted by `debounceWrites`), and memory now
holds the new snapshot. -/
def applyMut (sys : PersistSys) (s : AppState) : PersistSys :=
  { sys with mem := s, syncing := true }

/-- The armed timer fires (`src/unnamed/part_000` lines 43–53): the write
is attempted with the captured state. Within the backend's capacity `cap`
the document is stored under `STORAGE_KEY`; beyond it, `setItem` throws
`QuotaExceededError`, which the catch converts into the quota alert. The
in-memory state is untouched either way, and no stored key is evicted on
failure. -/
def applyWrite (cap : Nat) (sys : PersistSys) : PersistSys :=
  if serializedSize sys.mem ≤ cap then
    { sys with
      store := fun k => if k = STORAGE_KEY then some (appStateToJson sys.mem) else sys.store k
    , syncing := false }
  else
    { sys with notices := quotaNotice :: sys.notices, syncing := false }

/-- `src/unnamed/part_001` lines 294–310: `handleImport`. The chosen
file's text is parsed (the `Persisted` input holds the outcome); a
document whose `projects` property is truthy is accepted, and upon the
user confirming the overwrite it is written verbatim under the literal key
`'odemind_archive_v5_final'` and a full reload is forced (the returned
flag). A parse failure raises the invalid-data alert. The in-memory state
is never consulted or changed. -/
def handleImport (input : Persisted) (confirmed : Bool) (sys : PersistSys) :
    PersistSys × Bool :=
  match input with
  | .absent => (sys, false)
  | .malformed _ =>
      ({ sys with notices := "ERROR: INVALID_DATA_STRUCTURE" :: sys.notices }, false)
  | .parsed j =>
    if truthy ((getField j "projects").getD .null) then
      if confirmed then
        ({ sys with
            store := fun k =>
              if k = "odemind_archive_v5_final" then some j else sys.store k }, true)
      else (sys, false)
    else (sys, false)

/-- The loader's startup read `localStorage.getItem(STORAGE_KEY)`
(`src/unnamed/part_000` line 26) feeding `loadState`: a stored document is
a successfully parsed value; an absent key is `absent`. -/
def loadFromStore (store : String → Option Json) : AppState :=
  match store STORAGE_KEY with
  | none => loadState .absent
  | some j => loadState (.parsed j)

/-- A minimal system state for concrete witnesses: empty storage, default
in-memory state. -/
def initSys : PersistSys :=
  { mem := defaultState, store := fun _ => none, notices := [], syncing := false }

/-- An `AppState` with every collection and string empty, for size
witnesses. -/
def emptyAppState : AppState :=
  { projects := [], archiveItems := [], services := [], siteTitle := "", tagline := "" }

/-- A 100-character tagline, to push a witness state over a small
capacity. -/
def bigTagline : String :=
  "0123456789012345678901234567890123456789012345678901234567890123456789012345678901234567890123456789"

/-- `emptyAppState` with the long tagline: its serialization exceeds a
capacity of 100 bytes. -/
def bigState : AppState := { emptyAppState with tagline := bigTagline }

/-- A minimal importable document: a `projects` field holding an (empty)
array — and nothing else. -/
def importDoc : Json := Json.obj [("projects", Json.arr [])]

end Odemind

namespace Odemind

/-- Claim C8: For every state `s` and project `p` whose id occurs in no element
of `s.projects`, deleting `p.id` right after adding `p` (with the deletion
confirmed) restores exactly `s.projects`: `addProject` prepends `p` as the
first element, and the subsequent `deleteProject` removes exactly it. -/
theorem add_then_delete_identity (s : AppState) (p : Project)
    (hfresh : ∀ q ∈ s.projects, q.id ≠ p.id) :
    (deleteProject (addProject s p) p.id true).projects = s.projects := by
  have h1 : (deleteProject (addProject s p) p.id true).projects
      = (p :: s.projects).filter (fun q => q.id ≠ p.id) := rfl
  rw [h1, List.filter_cons_of_neg]
  · exact List.filter_eq_self.mpr fun q hq => by simpa using hfresh q hq
  · simp

/-- Witness for C8 at a concrete input: `sampleProject`'s id is fresh for
`defaultState`, and add-then-delete restores its projects list. -/
theorem add_then_delete_identity_witness :
    (deleteProject (addProject defaultState sampleProject)
        sampleProject.id true).projects = defaultState.projects :=
  add_then_delete_identity defaultState sampleProject (by decide)

/-- Claim C9: Duplicate-id policy of the update mutators: whenever two distinct
positions `i ≠ j` of `projects` (resp. `archiveItems`) both hold an element
whose id equals the updated id, `updateProject` (resp. `updateArchiveItem`)
replaces both occurrences with the updated value — overwrite-all-matches. -/
theorem update_overwrites_all_matches
    (s : AppState) (id : String) (i j : Nat) (hij : i ≠ j) :
    (∀ u p q, s.projects.get? i = some p → p.id = id →
        s.projects.get? j = some q → q.id = id →
        (updateProject s id u).projects.get? i = some u ∧
        (updateProject s id u).projects.get? j = some u) ∧
    (∀ u p q, s.archiveItems.get? i = some p → p.id = id →
        s.archiveItems.get? j = some q → q.id = id →
        (updateArchiveItem s id u).archiveItems.get? i = some u ∧
        (updateArchiveItem s id u).archiveItems.get? j = some u) := by
  constructor
  · intro u p q hpi hp hqj hq
    rw [List.get?_eq_getElem?] at hpi hqj
    constructor
    · show ((s.projects.map fun r => if r.id = id then u else r).get? i) = some u
      rw [List.get?_eq_getElem?, List.getElem?_map, hpi]
      simp [hp]
    · show ((s.projects.map fun r => if r.id = id then u else r).get? j) = some u
      rw [List.get?_eq_getElem?, List.getElem?_map, hqj]
      simp [hq]
  · intro u p q hpi hp hqj hq
    rw [List.get?_eq_getElem?] at hpi hqj
    constructor
    · show ((s.archiveItems.map fun r => if r.id = id then u else r).get? i) = some u
      rw [List.get?_eq_getElem?, List.getElem?_map, hpi]
      simp [hp]
    · show ((s.archiveItems.map fun r => if r.id = id then u else r).get? j) = some u
      rw [List.get?_eq_getElem?, List.getElem?_map, hqj]
      simp [hq]

/-- Witness for C9: in `dupState`, positions 0 and 1 of both collections
share one id, and updating that id overwrites both positions. -/
theorem update_overwrites_all_matches_witness :
    ((updateProject dupState "ODM-PRJ-2025-001" sampleProject).projects.get? 0
        = some sampleProject ∧
      (updateProject dupState "ODM-PRJ-2025-001" sampleProject).projects.get? 1
        = some sampleProject) ∧
    ((updateArchiveItem dupState "1" sampleArchiveItem).archiveItems.get? 0
        = some sampleArchiveItem ∧
      (updateArchiveItem dupState "1" sampleArchiveItem).archiveItems.get? 1
        = some sampleArchiveItem) := by
  have h := update_overwrites_all_matches dupState "ODM-PRJ-2025-001" 0 1 (by decide)
  have h2 := update_overwrites_all_matches dupState "1" 0 1 (by decide)
  refine ⟨h.1 sampleProject sampleProject { sampleProject with title := "OTHER" }
      (by decide) (by decide) (by decide) (by decide), ?_⟩
  exact h2.2 sampleArchiveItem sampleArchiveItem
      { sampleArchiveItem with company := "X" }
      (by decide) (by decide) (by decide) (by decide)

/-- Claim C10: The deletion mutators are gated on the `window.confirm` outcome:
for every state and id, a declined confirmation (`confirmed = false`) leaves
the state entirely unchanged, while an accepted one removes exactly the
elements carrying the id. -/
theorem delete_confirmation_gate (s : AppState) (id : String) :
    deleteProject s id false = s ∧
    deleteArchiveItem s id false = s ∧
    (deleteProject s id true).projects = s.projects.filter (fun p => p.id ≠ id) ∧
    (deleteArchiveItem s id true).archiveItems
      = s.archiveItems.filter (fun item => item.id ≠ id) := by
  refine ⟨rfl, rfl, ?_, ?_⟩ <;> simp [deleteProject, deleteArchiveItem]

/-- Claim C4: Decode-failure sentinel of the (current) Image Codec: on every
input whose decode fails, `compressImage` resolves with the empty-string
sentinel, and on every input whatsoever its promise settles (`isSome`):
it neither throws nor hangs. -/
theorem compressImage_decode_failure_sentinel (maxWidth qualityPct : Nat) :
    compressImage .bad maxWidth qualityPct = some "" ∧
    ∀ src, (compressImage src maxWidth qualityPct).isSome := by
  refine ⟨rfl, ?_⟩
  intro src
  cases src with
  | bad => rfl
  | ok w h => by_cases hw : w > maxWidth <;> simp [compressImage, hw]

/-- By contrast, the older codec revision in `src/components/AdminView.tsx`
installs no `onerror` resolver, so on a decode failure its promise never
settles. (Context for the variant choice; the spec describes the current
codec.) -/
theorem compressImageV4_decode_failure_pending (maxWidth qualityPct : Nat) :
    compressImageV4 .bad maxWidth qualityPct = none := rfl

/-- Claim C6: Ingestion size ceiling: a file whose byte size exceeds
10 MiB contributes nothing to the output URLs, causes no decode work, and
raises exactly one additional user-visible `alert`, the too-large
warning — wherever it sits in the input sequence. -/
theorem ingest_size_ceiling (xs ys : List FileData) (f : FileData)
    (hbig : f.size > 10 * 1024 * 1024) :
    (handleFileChange (xs ++ f :: ys)).urls = (handleFileChange (xs ++ ys)).urls ∧
    (handleFileChange (xs ++ f :: ys)).decodes = (handleFileChange (xs ++ ys)).decodes ∧
    (handleFileChange (xs ++ f :: ys)).alerts.length
      = (handleFileChange (xs ++ ys)).alerts.length + 1 ∧
    tooLargeWarning ∈ (handleFileChange (xs ++ f :: ys)).alerts := by
  have hb : f.size > fileSizeCeiling := by simpa [fileSizeCeiling] using hbig
  induction xs with
  | nil =>
    simp [handleFileChange, hb]
  | cons x xs ih =>
    by_cases hx : x.size > fileSizeCeiling <;>
      simp [handleFileChange, hx, ih.1, ih.2.1, ih.2.2.1, ih.2.2.2]

/-- Witness for C6: an 11 MiB file between two accepted files is skipped
with the warning and leaves URLs and decode count as without it. -/
theorem ingest_size_ceiling_witness :
    ((⟨11 * 1024 * 1024, ImgSrc.ok 50 50⟩ : FileData).size > 10 * 1024 * 1024) ∧
    ((handleFileChange
        ([⟨100, ImgSrc.ok 50 50⟩] ++ (⟨11 * 1024 * 1024, ImgSrc.ok 50 50⟩ : FileData)
          :: [⟨100, ImgSrc.bad⟩])).urls
      = (handleFileChange ([⟨100, ImgSrc.ok 50 50⟩] ++ [⟨100, ImgSrc.bad⟩])).urls ∧
    (handleFileChange
        ([⟨100, ImgSrc.ok 50 50⟩] ++ (⟨11 * 1024 * 1024, ImgSrc.ok 50 50⟩ : FileData)
          :: [⟨100, ImgSrc.bad⟩])).decodes
      = (handleFileChange ([⟨100, ImgSrc.ok 50 50⟩] ++ [⟨100, ImgSrc.bad⟩])).decodes ∧
    (handleFileChange
        ([⟨100, ImgSrc.ok 50 50⟩] ++ (⟨11 * 1024 * 1024, ImgSrc.ok 50 50⟩ : FileData)
          :: [⟨100, ImgSrc.bad⟩])).alerts.length
      = (handleFileChange ([⟨100, ImgSrc.ok 50 50⟩] ++ [⟨100, ImgSrc.bad⟩])).alerts.length + 1 ∧
    tooLargeWarning ∈ (handleFileChange
        ([⟨100, ImgSrc.ok 50 50⟩] ++ (⟨11 * 1024 * 1024, ImgSrc.ok 50 50⟩ : FileData)
          :: [⟨100, ImgSrc.bad⟩])).alerts) :=
  ⟨by decide, ingest_size_ceiling _ _ _ (by decide)⟩

/-- Claim C7: Ingestion order preservation: the URLs a batch produces are
exactly the codec outputs of the non-skipped, non-failed files, in input
order; and a file whose decode fails (the empty sentinel) is dropped from
the result sequence — removing it from the input leaves the URLs
unchanged. -/
theorem ingest_order_preservation :
    (∀ files : List FileData,
      (handleFileChange files).urls
        = (files.filter fun f =>
            decide (¬ f.size > fileSizeCeiling ∧ compressedStr f.img ≠ "")).map
            fun f => compressedStr f.img) ∧
    (∀ (xs ys : List FileData) (f : FileData),
      ¬ f.size > fileSizeCeiling → compressedStr f.img = "" →
      (handleFileChange (xs ++ f :: ys)).urls
        = (handleFileChange (xs ++ ys)).urls) := by
  have main : ∀ files : List FileData,
      (handleFileChange files).urls
        = (files.filter fun f =>
            decide (¬ f.size > fileSizeCeiling ∧ compressedStr f.img ≠ "")).map
            fun f => compressedStr f.img := by
    intro files
    induction files with
    | nil => rfl
    | cons f rest ih =>
      by_cases hs : f.size > fileSizeCeiling
      · have hs2 : ¬ f.size ≤ fileSizeCeiling := not_le.mpr hs
        simp [handleFileChange, List.filter_cons, hs, hs2, ih]
      · have hs' : f.size ≤ fileSizeCeiling := not_lt.mp hs
        by_cases hc : compressedStr f.img = ""
        · simp [handleFileChange, List.filter_cons, hs, hs', hc, ih]
        · simp [handleFileChange, List.filter_cons, hs, hs', hc, ih]
  refine ⟨main, ?_⟩
  intro xs ys f hs hc
  have hs' : f.size ≤ fileSizeCeiling := not_lt.mp hs
  rw [main, main, List.filter_append, List.filter_append, List.filter_cons]
  simp [hs', hc]

/-- Witness for C7: a three-file batch with a decode failure in the middle
yields the two successful encodings in input order, and equals the batch
with the failing file removed. -/
theorem ingest_order_preservation_witness :
    (handleFileChange
        [⟨100, ImgSrc.ok 700 500⟩, ⟨100, ImgSrc.bad⟩, ⟨100, ImgSrc.ok 300 200⟩]).urls
      = [compressedStr (ImgSrc.ok 700 500), compressedStr (ImgSrc.ok 300 200)] ∧
    (¬ (⟨100, ImgSrc.bad⟩ : FileData).size > fileSizeCeiling) ∧
    compressedStr ImgSrc.bad = "" ∧
    (handleFileChange
        ([⟨100, ImgSrc.ok 700 500⟩] ++ (⟨100, ImgSrc.bad⟩ : FileData)
          :: [⟨100, ImgSrc.ok 300 200⟩])).urls
      = (handleFileChange ([⟨100, ImgSrc.ok 700 500⟩] ++ [⟨100, ImgSrc.ok 300 200⟩])).urls := by
  have h := ingest_order_preservation
  refine ⟨?_, by decide, rfl, h.2 _ _ _ (by decide) rfl⟩
  rw [h.1]
  rfl

/-- Claim C1: Debounce of the Persistence Synchronizer: when each of three
successive state changes arrives within the window of its predecessor's
pending timer, that timer is cancelled and the window restarts, so exactly
one write fires — one window after the last change, carrying the state of
the last change; no intermediate snapshot of the burst is persisted. The
claim's concrete timeline (t = 0, 100, 200 ms, window 500 ms, single write
at 700 ms) is the witness instance. -/
theorem debounce_single_write (w t0 t1 t2 : Nat) (s0 s1 s2 : AppState)
    (h01 : t1 < t0 + w) (h12 : t2 < t1 + w) :
    debounceWrites w [(t0, s0), (t1, s1), (t2, s2)] = [(t2 + w, s2)] := by
  simp [debounceWrites, h01, h12]

/-- Witness for C1: mutations at t=0, 100, 200 with the source's 500 ms
window produce exactly one write, at t=700, of the t=200 state. -/
theorem debounce_single_write_witness :
    (100 < 0 + 500 ∧ 200 < 100 + 500) ∧
    debounceWrites DEBOUNCE_MS
      [(0, defaultState), (100, updateSettings defaultState "A" "B"),
        (200, updateSettings defaultState "C" "D")]
      = [(700, updateSettings defaultState "C" "D")] :=
  ⟨⟨by decide, by decide⟩,
    debounce_single_write 500 0 100 200 defaultState
      (updateSettings defaultState "A" "B") (updateSettings defaultState "C" "D")
      (by decide) (by decide)⟩

/-- Claim C2: Quota-exceeded persistence failure is atomic and reported:
when the debounced write of a state whose serialization exceeds capacity
fires, the quota alert is raised, the in-memory state is retained
unchanged, and the storage is left exactly as it was (nothing evicted or
compacted); a subsequent mutation to a state that fits triggers another
write attempt, which stores it under `STORAGE_KEY`. -/
theorem quota_failure_atomic (cap : Nat) (sys0 : PersistSys) (sBig sSmall : AppState)
    (hbig : cap < serializedSize sBig) (hfits : serializedSize sSmall ≤ cap) :
    (applyWrite cap (applyMut sys0 sBig)).mem = sBig ∧
    (applyWrite cap (applyMut sys0 sBig)).store = sys0.store ∧
    quotaNotice ∈ (applyWrite cap (applyMut sys0 sBig)).notices ∧
    (applyWrite cap (applyMut (applyWrite cap (applyMut sys0 sBig)) sSmall)).store
        STORAGE_KEY = some (appStateToJson sSmall) ∧
    (∀ k, k ≠ STORAGE_KEY →
      (applyWrite cap (applyMut (applyWrite cap (applyMut sys0 sBig)) sSmall)).store k
        = sys0.store k) := by
  have h1 : ¬ serializedSize sBig ≤ cap := not_le.mpr hbig
  refine ⟨?_, ?_, ?_, ?_, ?_⟩
  · simp [applyWrite, applyMut, h1]
  · simp [applyWrite, applyMut, h1]
  · simp [applyWrite, applyMut, h1]
  · simp [applyWrite, applyMut, h1, hfits]
  · intro k hk
    simp [applyWrite, applyMut, h1, hfits, hk]

set_option maxRecDepth 8192 in
/-- Witness for C2 at concrete inputs: with capacity 100, `bigState`
(its 100-character tagline) fails to persist with the alert, storage
stays empty, and the subsequent mutation to `emptyAppState` persists. -/
theorem quota_failure_atomic_witness :
    (100 < serializedSize bigState ∧ serializedSize emptyAppState ≤ 100) ∧
    ((applyWrite 100 (applyMut initSys bigState)).mem = bigState ∧
      (applyWrite 100 (applyMut initSys bigState)).store = initSys.store ∧
      quotaNotice ∈ (applyWrite 100 (applyMut initSys bigState)).notices ∧
      (applyWrite 100 (applyMut (applyWrite 100 (applyMut initSys bigState))
          emptyAppState)).store STORAGE_KEY = some (appStateToJson emptyAppState) ∧
      (∀ k, k ≠ STORAGE_KEY →
        (applyWrite 100 (applyMut (applyWrite 100 (applyMut initSys bigState))
            emptyAppState)).store k = initSys.store k)) :=
  ⟨⟨by decide, by decide⟩,
    quota_failure_atomic 100 initSys bigState emptyAppState (by decide) (by decide)⟩

/-- Claim C3: State Loader fallback: `load()` returns the built-in default
dataset when the persisted value is absent, when parsing it fails
(whatever the raw text), when the parsed document has no `projects`
property, and when that property is not an array; every branch returns
normally (`loadState` is a total function into `AppState`), so corrupt or
absent input never crashes startup. -/
theorem loader_fallback :
    loadState .absent = defaultState ∧
    (∀ raw, loadState (.malformed raw) = defaultState) ∧
    (∀ j, getField j "projects" = none → loadState (.parsed j) = defaultState) ∧
    (∀ j v, getField j "projects" = some v → isArr v = false →
      loadState (.parsed j) = defaultState) := by
  refine ⟨rfl, fun _ => rfl, ?_, ?_⟩
  · intro j h
    simp [loadState, loadShapeOk, h]
  · intro j v hv hna
    simp [loadState, loadShapeOk, hv, hna]

/-- Witness for C3: a truncated JSON text, a number document (no
`projects` property), and a document whose `projects` is a plain string
all load as the default dataset. -/
theorem loader_fallback_witness :
    loadState (.malformed "\x7b\"projects\":[") = defaultState ∧
    (getField (Json.num 5) "projects" = none ∧
      loadState (.parsed (Json.num 5)) = defaultState) ∧
    (getField (Json.obj [("projects", Json.str "x")]) "projects"
        = some (Json.str "x") ∧
      isArr (Json.str "x") = false ∧
      loadState (.parsed (Json.obj [("projects", Json.str "x")])) = defaultState) :=
  ⟨loader_fallback.2.1 _,
    ⟨rfl, loader_fallback.2.2.1 _ rfl⟩,
    ⟨rfl, rfl, loader_fallback.2.2.2 _ _ rfl rfl⟩⟩

/-- Claim C5: Import writes the shared storage slot: a document whose
`projects` property is truthy is accepted (and only such documents — any
other is rejected unchanged, whatever the confirmation), and on acceptance
the document itself is written under `STORAGE_KEY` — the same fixed key
the Persistence Synchronizer writes and the State Loader reads at startup
(`loadFromStore` of the new storage reloads exactly that document) — a
full reload is forced, all other keys are untouched, and the in-memory
state is bypassed entirely. -/
theorem import_writes_shared_slot (j : Json) (sys : PersistSys)
    (haccept : truthy ((getField j "projects").getD .null) = true) :
    (handleImport (.parsed j) true sys).1.store STORAGE_KEY = some j ∧
    (∀ k, k ≠ STORAGE_KEY →
      (handleImport (.parsed j) true sys).1.store k = sys.store k) ∧
    (handleImport (.parsed j) true sys).2 = true ∧
    (handleImport (.parsed j) true sys).1.mem = sys.mem ∧
    loadFromStore (handleImport (.parsed j) true sys).1.store = loadState (.parsed j) ∧
    (∀ (j2 : Json) (c : Bool) (sys2 : PersistSys),
      truthy ((getField j2 "projects").getD .null) = false →
      handleImport (.parsed j2) c sys2 = (sys2, false)) := by
  have key : (handleImport (.parsed j) true sys).1.store STORAGE_KEY = some j := by
    simp [handleImport, haccept, STORAGE_KEY]
  refine ⟨key, ?_, ?_, ?_, ?_, ?_⟩
  · intro k hk
    have hk' : k ≠ "odemind_archive_v5_final" := by simpa [STORAGE_KEY] using hk
    simp [handleImport, haccept, hk']
  · simp [handleImport, haccept]
  · simp [handleImport, haccept]
  · simp [loadFromStore, key]
  · intro j2 c sys2 hrej
    simp [handleImport, hrej]

/-- Witness for C5: importing the minimal `importDoc` (a bare `projects`
array and nothing else) with the overwrite confirmed writes it under the
shared key of the fresh system. -/
theorem import_writes_shared_slot_witness :
    truthy ((getField importDoc "projects").getD .null) = true ∧
    ((handleImport (.parsed importDoc) true initSys).1.store STORAGE_KEY
        = some importDoc ∧
      (∀ k, k ≠ STORAGE_KEY →
        (handleImport (.parsed importDoc) true initSys).1.store k = initSys.store k) ∧
      (handleImport (.parsed importDoc) true initSys).2 = true ∧
      (handleImport (.parsed importDoc) true initSys).1.mem = initSys.mem ∧
      loadFromStore (handleImport (.parsed importDoc) true initSys).1.store
        = loadState (.parsed importDoc) ∧
      (∀ (j2 : Json) (c : Bool) (sys2 : PersistSys),
        truthy ((getField j2 "projects").getD .null) = false →
        handleImport (.parsed j2) c sys2 = (sys2, false))) :=
  ⟨rfl, import_writes_shared_slot importDoc initSys rfl⟩

end Odemind
